import Mathlib

/-!
Verification of the mTLS mock server (`mtls_mock`).

The repository contains three HTTPS server variants plus a diagnostics
script.  The core under verification is the mTLS handshake-and-authorization
gate and the certificate bootstrap:

* `server.js` (src/unnamed/part_000): express app, TLS options with
  `requestCert`, `rejectUnauthorized`, `minVersion`/`maxVersion`/`ciphers`,
  a CORS middleware, a single GET `/` route gated on `req.client.authorized`,
  `error` / `tlsClientError` / `uncaughtException` handlers that log only.
* `mtlsserver.js` (src/unnamed/part_001, first file): same app plus a
  certificate bootstrap that generates a self-signed server key/certificate
  pair via `openssl` when the key file or the certificate file is missing.
* `mtlsserver copy.js` (src/unnamed/part_001, second file): a bare `https`
  server whose options set only key/cert/ca, `requestCert`,
  `rejectUnauthorized`, a `handshakeTimeout` and a debug flag — no protocol
  version bounds and no cipher list.

The definitions below are a shallow embedding of this code: pure data for
the JSON payloads and TLS option records, explicit filesystem state for the
bootstrap, and effect lists for the event handlers.
-/

namespace MtlsMock

/-- Peer certificate fields the server echoes back: `clientCert.subject`,
`clientCert.issuer`, `clientCert.valid_from`, `clientCert.valid_to` as read
from `req.socket.getPeerCertificate()`. -/
structure CertInfo where
  subject : String
  issuer : String
  valid_from : String
  valid_to : String
  deriving DecidableEq

/-- The JSON object built by the route handler: `status`, `message`, and on
success a `clientInfo` object with the peer certificate fields. -/
structure JsonPayload where
  status : String
  message : String
  clientInfo : Option CertInfo
  deriving DecidableEq

/-- Response body: `res.json(...)`, `res.sendStatus(code)` (express sends the
status text as body), or the express default not-found page. -/
inductive Body where
  | json (payload : JsonPayload)
  | sendStatus (code : Nat)
  | notFound
  deriving DecidableEq

/-- An HTTP response: status code, headers set so far, body. -/
structure Response where
  httpStatus : Nat
  headers : List (String × String)
  body : Body
  deriving DecidableEq

/-- An incoming request as the express handlers observe it: method, path,
the connection's `req.client.authorized` flag (set by the TLS layer from
chain-of-trust verification against the CA), and the peer certificate. -/
structure Request where
  method : String
  path : String
  authorized : Bool
  peerCert : CertInfo
  deriving DecidableEq

/-- The three CORS headers set by the middleware on every request. -/
def corsHeaders : List (String × String) :=
  [("Access-Control-Allow-Origin", "*"),
   ("Access-Control-Allow-Methods", "GET, POST, OPTIONS"),
   ("Access-Control-Allow-Headers", "Content-Type, Authorization")]

/-- The GET `/` route handler of `server.js` and `mtlsserver.js`: if
`req.client.authorized` respond with the success JSON echoing the peer
certificate, else respond 401 with the error JSON. -/
def rootHandler (req : Request) : Response :=
  if req.authorized then
    { httpStatus := 200
      headers := corsHeaders
      body := Body.json
        { status := "success"
          message := "mTLS connection successful"
          clientInfo := some req.peerCert } }
  else
    { httpStatus := 401
      headers := corsHeaders
      body := Body.json
        { status := "error"
          message := "Client certificate verification failed"
          clientInfo := none } }

/-- The express pipeline of `server.js` and `mtlsserver.js`: the CORS
middleware sets headers and answers OPTIONS requests with
`res.sendStatus(200)` before any route runs; otherwise the single GET `/`
route handles the request, and anything else falls through to the express
default 404. -/
def appHandle (req : Request) : Response :=
  if req.method = "OPTIONS" then
    { httpStatus := 200, headers := corsHeaders, body := Body.sendStatus 200 }
  else if req.method = "GET" ∧ req.path = "/" then
    rootHandler req
  else
    { httpStatus := 404, headers := corsHeaders, body := Body.notFound }

/-- A fixed peer certificate used to instantiate witnesses. -/
def sampleCert : CertInfo :=
  { subject := "CN=TestClient"
    issuer := "CN=Test CA"
    valid_from := "Jan 1 00:00:00 2025 GMT"
    valid_to := "Jan 1 00:00:00 2026 GMT" }

/-- The on-disk state of the three PEM artifacts next to `mtlsserver.js`:
`server_key.pem`, `server_cert.pem`, `ca_cert.pem`.  `none` means the file is
absent (`fs.existsSync` false); `some s` means it exists with contents `s`. -/
structure FileSystem where
  serverKey : Option String
  serverCert : Option String
  caCert : Option String
  deriving DecidableEq

/-- The hardcoded subject identity of `mtlsserver.js` (line 8); note it is a
full URL including the scheme, not a bare hostname. -/
def DOMAIN_NAME : String := "https://mtlsserver-52a108593257.herokuapp.com"

/-- The openssl invocation built by `generateCertificate`: a single `req`
command with `-new -newkey rsa:2048 -days 365 -nodes -x509` writing the key
to `keyFile`, the certificate to `certFile`, with the fixed subject. -/
structure OpensslReq where
  newKeyAlgo : String
  days : Nat
  selfSigned : Bool
  keyout : String
  certout : String
  subj : String
  deriving DecidableEq

/-- `generateCertificate(keyFile, certFile)` of `mtlsserver.js`: the command
it executes, as a structured record.  Every field other than the two output
paths is a constant independent of any startup input. -/
def generateCertificateCmd (keyFile certFile : String) : OpensslReq :=
  { newKeyAlgo := "rsa:2048"
    days := 365
    selfSigned := true
    keyout := keyFile
    certout := certFile
    subj := "/C=US/ST=State/L=City/O=Organization/OU=OrgUnit/CN=" ++ DOMAIN_NAME }

/-- The generation step of the bootstrap (`mtlsserver.js` lines 48-51):
`if (!fs.existsSync(keyFile) || !fs.existsSync(certFile))` then
`generateCertificate(keyFile, certFile)`, which writes a fresh key and a
fresh certificate over both paths.  Returns the resulting filesystem and the
number of generation runs (0 or 1).  `freshKey`/`freshCert` stand for the
contents openssl produces. -/
def bootstrapGenStep (fs : FileSystem) (freshKey freshCert : String) :
    FileSystem × Nat :=
  if fs.serverKey.isNone || fs.serverCert.isNone then
    ({ fs with serverKey := some freshKey, serverCert := some freshCert }, 1)
  else
    (fs, 0)

/-- Outcome of the startup `try` block of `mtlsserver.js`: either the process
called `process.exit(1)` from the `catch`, or the listener was bound on the
port with the given material loaded. -/
inductive StartupResult where
  | exited (code : Nat)
  | listening (port : Nat) (key cert ca : String)
  deriving DecidableEq

/-- The three `loadCertificate` calls of the options object, in source order
(key, cert, ca): each throws when its file is absent, which the outer `catch`
turns into `process.exit(1)`; when all three load, the server reaches
`server.listen(8446)`. -/
def loadAndListen (fs : FileSystem) : StartupResult :=
  match fs.serverKey with
  | none => StartupResult.exited 1
  | some k =>
    match fs.serverCert with
    | none => StartupResult.exited 1
    | some c =>
      match fs.caCert with
      | none => StartupResult.exited 1
      | some ca => StartupResult.listening 8446 k c ca

/-- The whole startup `try` block of `mtlsserver.js`: run the generation step
when key or certificate is missing (`genOk` false models the openssl
subprocess throwing, which `generateCertificate` rethrows into the outer
`catch`), then load the three PEM files and listen.  Returns the outcome and
the final filesystem. -/
def startup (fs : FileSystem) (freshKey freshCert : String) (genOk : Bool) :
    StartupResult × FileSystem :=
  if fs.serverKey.isNone || fs.serverCert.isNone then
    if genOk then
      let fs1 : FileSystem :=
        { fs with serverKey := some freshKey, serverCert := some freshCert }
      (loadAndListen fs1, fs1)
    else
      (StartupResult.exited 1, fs)
  else
    (loadAndListen fs, fs)

/-- TLS protocol versions relevant to the configuration. -/
inductive TlsVersion where
  | tls1_0
  | tls1_1
  | tls1_2
  | tls1_3
  deriving DecidableEq

/-- Numeric order of the protocol versions. -/
def TlsVersion.rank : TlsVersion → Nat
  | tls1_0 => 0
  | tls1_1 => 1
  | tls1_2 => 2
  | tls1_3 => 3

/-- The explicit cipher allow-list string of `server.js` and `mtlsserver.js`,
split on the colon separators. -/
def cipherAllowList : List String :=
  ["ECDHE-ECDSA-AES128-GCM-SHA256", "ECDHE-RSA-AES128-GCM-SHA256",
   "ECDHE-ECDSA-AES256-GCM-SHA384", "ECDHE-RSA-AES256-GCM-SHA384"]

/-- The TLS-relevant fields of the `options` object passed to
`https.createServer`; `none` means the variant does not set the field. -/
structure TlsServerOptions where
  requestCert : Bool
  rejectUnauthorized : Bool
  minVersion : Option TlsVersion
  maxVersion : Option TlsVersion
  ciphers : Option (List String)
  handshakeTimeout : Option Nat
  deriving DecidableEq

/-- The `options` object of `server.js` (src/unnamed/part_000 lines 32-43). -/
def serverJsOptions : TlsServerOptions :=
  { requestCert := true
    rejectUnauthorized := true
    minVersion := some TlsVersion.tls1_2
    maxVersion := some TlsVersion.tls1_3
    ciphers := some cipherAllowList
    handshakeTimeout := none }

/-- The `options` object of `mtlsserver.js` (src/unnamed/part_001 lines
53-63), field for field identical to the `server.js` one. -/
def mtlsServerOptions : TlsServerOptions :=
  { requestCert := true
    rejectUnauthorized := true
    minVersion := some TlsVersion.tls1_2
    maxVersion := some TlsVersion.tls1_3
    ciphers := some cipherAllowList
    handshakeTimeout := none }

/-- The `options` object of `mtlsserver copy.js` (src/unnamed/part_001 lines
169-178): it sets `requestCert`, `rejectUnauthorized`, a two-minute
`handshakeTimeout` and a debug flag, but no protocol version bounds and no
cipher list. -/
def mtlsServerCopyOptions : TlsServerOptions :=
  { requestCert := true
    rejectUnauthorized := true
    minVersion := none
    maxVersion := none
    ciphers := none
    handshakeTimeout := some 120000 }

/-- Modelled from the spec: the transport library accepts a handshake only
when the negotiated protocol version lies within the configured bounds
("connections negotiating outside these bounds must fail the handshake");
this enforcement lives in the TLS library, not in the repository code, so it
is embedded from the spec wording.  An unset bound imposes no constraint
here. -/
def handshakeVersionAccepted (opts : TlsServerOptions) (v : TlsVersion) : Bool :=
  (match opts.minVersion with
   | some m => decide (m.rank ≤ v.rank)
   | none => true) &&
  (match opts.maxVersion with
   | some m => decide (v.rank ≤ m.rank)
   | none => true)

/-- The observable actions of the registered event handlers: console logging,
a process exit, or a handshake retry (which no handler ever performs). -/
inductive Effect where
  | logDebug (msg : String)
  | logError (msg : String)
  | exitProcess (code : Nat)
  | retryHandshake
  deriving DecidableEq

/-- Whether an effect is a process exit. -/
def Effect.isExit : Effect → Bool
  | exitProcess _ => true
  | _ => false

/-- Whether an effect is a handshake retry. -/
def Effect.isRetry : Effect → Bool
  | retryHandshake => true
  | _ => false

/-- The `server.on('error', ...)` handler of `server.js` and `mtlsserver.js`:
it logs the error and does nothing else. -/
def serverErrorHandler (err : String) : List Effect :=
  [Effect.logError ("Server error: " ++ err)]

/-- What happens when the listener cannot bind: Node emits the `error` event
on the server, and the registered `server.on('error')` handler is the only
code that runs — the startup `try`/`catch` cannot observe the asynchronous
event. -/
def bindFailureEffects (err : String) : List Effect :=
  serverErrorHandler err

/-- The `server.on('tlsClientError', ...)` handler: logs the error, and when
the socket exposes a negotiated protocol, logs that too. -/
def tlsClientErrorHandler (err : String) (socketProtocol : Option String) :
    List Effect :=
  Effect.logError ("TLS Client error: " ++ err) ::
    match socketProtocol with
    | some p => [Effect.logDebug ("TLS Socket Info - Protocol: " ++ p)]
    | none => []

/-- The `process.on('uncaughtException', ...)` handler: logs and returns,
keeping the process alive. -/
def uncaughtExceptionHandler (err : String) : List Effect :=
  [Effect.logError ("Uncaught Exception: " ++ err)]

/-- Process-level server state: the set of currently live connections
(identified by number) and whether the process has exited. -/
structure ServerState where
  connections : List Nat
  exited : Bool
  deriving DecidableEq

/-- A handshake failure on connection `c`: the TLS layer terminates that one
connection (spec: "connection terminated, logged, server continues serving
other connections" — the termination itself is transport-library behavior),
and the registered `tlsClientError` handler runs. -/
def handshakeErrorStep (s : ServerState) (c : Nat) (err : String)
    (proto : Option String) : ServerState × List Effect :=
  ({ s with connections := s.connections.filter (fun x => x ≠ c) },
   tlsClientErrorHandler err proto)

end MtlsMock

namespace MtlsMock

/-- Claim C1: for every connection, the server serves the authenticated-only
success payload only when the connection's authorization flag (set by
chain-of-trust verification against the Trust Anchor) is true; no request
path produces the success payload otherwise. -/
theorem success_payload_requires_authorized (req : Request) (p : JsonPayload)
    (hb : (appHandle req).body = Body.json p) (hs : p.status = "success") :
    req.authorized = true := by
  unfold appHandle rootHandler at hb
  split at hb
  · exact Body.noConfusion hb
  · split at hb
    · split at hb
      · assumption
      · exfalso
        have h1 : Body.json
            { status := "error"
              message := "Client certificate verification failed"
              clientInfo := none } = Body.json p := hb
        have h2 := (Body.json.injEq _ _).mp h1
        rw [← h2] at hs
        exact absurd hs (by decide)
    · exact Body.noConfusion hb

/-- Witness for C1: a concrete authorized GET `/` request receives the
success payload, and the theorem applied to it yields its authorization. -/
theorem success_payload_requires_authorized_witness :
    (⟨"GET", "/", true, sampleCert⟩ : Request).authorized = true :=
  success_payload_requires_authorized ⟨"GET", "/", true, sampleCert⟩
    { status := "success", message := "mTLS connection successful",
      clientInfo := some sampleCert }
    (by decide) rfl

/-- Claim C2: every GET on `/` is answered with exactly one of two mutually
exclusive responses: when the authorization flag is true, the 200 success
payload echoing the peer certificate subject, issuer and validity window;
when it is false, a 401 with status `error` and message `Client certificate
verification failed`. -/
theorem root_get_dichotomy (req : Request)
    (hm : req.method = "GET") (hp : req.path = "/") :
    (req.authorized = true →
      appHandle req =
        { httpStatus := 200
          headers := corsHeaders
          body := Body.json
            { status := "success"
              message := "mTLS connection successful"
              clientInfo := some req.peerCert } }) ∧
    (req.authorized = false →
      appHandle req =
        { httpStatus := 401
          headers := corsHeaders
          body := Body.json
            { status := "error"
              message := "Client certificate verification failed"
              clientInfo := none } }) := by
  unfold appHandle rootHandler
  rw [hm, hp]
  constructor
  · intro ha
    rw [ha]
    simp
  · intro ha
    rw [ha]
    simp

/-- Witness for C2: the dichotomy evaluated at one authorized and one
unauthorized concrete GET `/` request. -/
theorem root_get_dichotomy_witness :
    appHandle ⟨"GET", "/", true, sampleCert⟩ =
      { httpStatus := 200
        headers := corsHeaders
        body := Body.json
          { status := "success"
            message := "mTLS connection successful"
            clientInfo := some sampleCert } } ∧
    appHandle ⟨"GET", "/", false, sampleCert⟩ =
      { httpStatus := 401
        headers := corsHeaders
        body := Body.json
          { status := "error"
            message := "Client certificate verification failed"
            clientInfo := none } } :=
  ⟨(root_get_dichotomy ⟨"GET", "/", true, sampleCert⟩ rfl rfl).1 rfl,
   (root_get_dichotomy ⟨"GET", "/", false, sampleCert⟩ rfl rfl).2 rfl⟩

/-- Counterexample to claim C3: in the state where the server key exists with
contents `oldkey` but the certificate file is absent, the bootstrap runs the
generation (the guard is a disjunction of the two absences, not a
conjunction) and overwrites the existing key file. -/
theorem bootstrap_overwrites_lone_key :
    (bootstrapGenStep ⟨some "oldkey", none, some "ca"⟩ "newkey" "newcert").2 = 1 ∧
    (bootstrapGenStep ⟨some "oldkey", none, some "ca"⟩ "newkey"
        "newcert").1.serverKey = some "newkey" := by
  constructor
  · rfl
  · rfl

/-- Claim C3 as amended: the bootstrap invokes generation exactly when at
least one of the server key file and the server certificate file is absent;
only when both exist does no generation run (and then nothing is changed),
and a generation run rewrites both files, overwriting whichever of the two
already existed. -/
theorem bootstrap_generation_guard (fs : FileSystem) (k c : String) :
    (fs.serverKey.isSome → fs.serverCert.isSome →
      bootstrapGenStep fs k c = (fs, 0)) ∧
    (fs.serverKey.isNone ∨ fs.serverCert.isNone →
      bootstrapGenStep fs k c =
        ({ fs with serverKey := some k, serverCert := some c }, 1)) := by
  unfold bootstrapGenStep
  cases hk : fs.serverKey <;> cases hc : fs.serverCert <;>
    simp [hk, hc, Option.isSome, Option.isNone]

/-- Witness for the amended C3: both parts evaluated at concrete states. -/
theorem bootstrap_generation_guard_witness :
    bootstrapGenStep ⟨some "k0", some "c0", some "ca"⟩ "k1" "c1" =
      (⟨some "k0", some "c0", some "ca"⟩, 0) ∧
    bootstrapGenStep ⟨none, none, some "ca"⟩ "k1" "c1" =
      (⟨some "k1", some "c1", some "ca"⟩, 1) :=
  ⟨(bootstrap_generation_guard ⟨some "k0", some "c0", some "ca"⟩ "k1" "c1").1
      rfl rfl,
   (bootstrap_generation_guard ⟨none, none, some "ca"⟩ "k1" "c1").2
      (Or.inl rfl)⟩

/-- Claim C7: bootstrap is idempotent.  When key and certificate both exist,
no generation runs and the filesystem is unchanged; when both are absent, a
single run performs exactly one generation producing the new pair, after
which a second run performs none. -/
theorem bootstrap_idempotent (fs : FileSystem) (k c k2 c2 : String) :
    (fs.serverKey.isSome → fs.serverCert.isSome →
      bootstrapGenStep fs k c = (fs, 0)) ∧
    (fs.serverKey = none → fs.serverCert = none →
      (bootstrapGenStep fs k c).2 = 1 ∧
      (bootstrapGenStep fs k c).1.serverKey = some k ∧
      (bootstrapGenStep fs k c).1.serverCert = some c ∧
      bootstrapGenStep (bootstrapGenStep fs k c).1 k2 c2 =
        ((bootstrapGenStep fs k c).1, 0)) := by
  unfold bootstrapGenStep
  cases hk : fs.serverKey <;> cases hc : fs.serverCert <;>
    simp [hk, hc, Option.isSome, Option.isNone]

/-- Witness for C7: idempotence evaluated at one populated and one empty
concrete state, the second one run twice. -/
theorem bootstrap_idempotent_witness :
    bootstrapGenStep ⟨some "k0", some "c0", none⟩ "ka" "ca" =
      (⟨some "k0", some "c0", none⟩, 0) ∧
    (bootstrapGenStep ⟨none, none, some "trust"⟩ "ka" "ca").2 = 1 ∧
    bootstrapGenStep
        (bootstrapGenStep ⟨none, none, some "trust"⟩ "ka" "ca").1 "kb" "cb" =
      ((bootstrapGenStep ⟨none, none, some "trust"⟩ "ka" "ca").1, 0) :=
  ⟨(bootstrap_idempotent ⟨some "k0", some "c0", none⟩ "ka" "ca" "kb" "cb").1
      rfl rfl,
   ((bootstrap_idempotent ⟨none, none, some "trust"⟩ "ka" "ca" "kb" "cb").2
      rfl rfl).1,
   ((bootstrap_idempotent ⟨none, none, some "trust"⟩ "ka" "ca" "kb" "cb").2
      rfl rfl).2.2.2⟩

/-- Claim C5: when the CA certificate file is absent at startup, the process
exits with status 1 whatever else holds: the bootstrap never generates a CA
certificate (the final filesystem still has none), and the listener is never
bound. -/
theorem missing_ca_exits (fs : FileSystem) (k c : String) (genOk : Bool)
    (hca : fs.caCert = none) :
    (startup fs k c genOk).1 = StartupResult.exited 1 ∧
    (startup fs k c genOk).2.caCert = none ∧
    ∀ p kk cc ca, (startup fs k c genOk).1 ≠ StartupResult.listening p kk cc ca := by
  have hmain : (startup fs k c genOk).1 = StartupResult.exited 1 ∧
      (startup fs k c genOk).2.caCert = none := by
    unfold startup loadAndListen
    cases hk : fs.serverKey <;> cases hc : fs.serverCert <;>
      cases genOk <;> simp [hk, hc, hca]
  refine ⟨hmain.1, hmain.2, ?_⟩
  intro p kk cc ca hcontra
  rw [hmain.1] at hcontra
  exact StartupResult.noConfusion hcontra

/-- Witness for C5: startup on a state holding key and certificate but no CA
file exits with code 1 and generates no CA. -/
theorem missing_ca_exits_witness :
    (startup ⟨some "k", some "c", none⟩ "fk" "fc" true).1 =
      StartupResult.exited 1 ∧
    (startup ⟨some "k", some "c", none⟩ "fk" "fc" true).2.caCert = none :=
  ⟨(missing_ca_exits ⟨some "k", some "c", none⟩ "fk" "fc" true rfl).1,
   (missing_ca_exits ⟨some "k", some "c", none⟩ "fk" "fc" true rfl).2.1⟩

/-- Claim C10: the generation command is fixed, independent of startup input:
RSA-2048 key, 365-day validity, self-signed (`-x509`), and subject CN equal
to the hardcoded full URL; and when generation is needed but the subprocess
fails, the thrown error reaches the fatal startup path, exiting with 1. -/
theorem generation_fixed_and_failure_fatal (keyFile certFile : String)
    (fs : FileSystem) (k c : String) (hneed : fs.serverKey = none) :
    (generateCertificateCmd keyFile certFile).newKeyAlgo = "rsa:2048" ∧
    (generateCertificateCmd keyFile certFile).days = 365 ∧
    (generateCertificateCmd keyFile certFile).selfSigned = true ∧
    (generateCertificateCmd keyFile certFile).subj =
      "/C=US/ST=State/L=City/O=Organization/OU=OrgUnit/CN=" ++ DOMAIN_NAME ∧
    DOMAIN_NAME = "https://mtlsserver-52a108593257.herokuapp.com" ∧
    (startup fs k c false).1 = StartupResult.exited 1 := by
  refine ⟨rfl, rfl, rfl, rfl, rfl, ?_⟩
  unfold startup
  simp [hneed]

/-- Witness for C10: the command parameters and the fatal path evaluated on
an empty filesystem with a failing generation subprocess. -/
theorem generation_fixed_and_failure_fatal_witness :
    (generateCertificateCmd "server_key.pem" "server_cert.pem").days = 365 ∧
    (startup ⟨none, none, some "trust"⟩ "fk" "fc" false).1 =
      StartupResult.exited 1 :=
  ⟨(generation_fixed_and_failure_fatal "server_key.pem" "server_cert.pem"
      ⟨none, none, some "trust"⟩ "fk" "fc" rfl).2.1,
   (generation_fixed_and_failure_fatal "server_key.pem" "server_cert.pem"
      ⟨none, none, some "trust"⟩ "fk" "fc" rfl).2.2.2.2.2⟩

/-- Counterexample to claim C4: the `mtlsserver copy.js` variant configures
neither a minimum nor a maximum protocol version nor any cipher allow-list. -/
theorem copy_variant_lacks_transport_policy :
    mtlsServerCopyOptions.minVersion = none ∧
    mtlsServerCopyOptions.maxVersion = none ∧
    mtlsServerCopyOptions.ciphers = none :=
  ⟨rfl, rfl, rfl⟩

/-- Claim C4 as amended: the `server.js` and `mtlsserver.js` variants (but
not `mtlsserver copy.js`) configure minimum version TLSv1.2, maximum version
TLSv1.3 and the explicit four-cipher allow-list, fixed in the startup-time
options object; under those bounds exactly the versions TLSv1.2 and TLSv1.3
are accepted, so a handshake negotiating below the minimum or above the
maximum fails. -/
theorem main_variants_transport_policy :
    serverJsOptions.minVersion = some TlsVersion.tls1_2 ∧
    serverJsOptions.maxVersion = some TlsVersion.tls1_3 ∧
    serverJsOptions.ciphers = some cipherAllowList ∧
    mtlsServerOptions = serverJsOptions ∧
    (∀ v : TlsVersion, handshakeVersionAccepted serverJsOptions v = true ↔
      (v = TlsVersion.tls1_2 ∨ v = TlsVersion.tls1_3)) ∧
    (∀ v : TlsVersion, handshakeVersionAccepted mtlsServerOptions v = true ↔
      (v = TlsVersion.tls1_2 ∨ v = TlsVersion.tls1_3)) := by
  refine ⟨rfl, rfl, rfl, rfl, ?_, ?_⟩ <;>
    intro v <;> cases v <;>
      simp [handshakeVersionAccepted, serverJsOptions, mtlsServerOptions,
        TlsVersion.rank]

/-- Counterexample to claim C6: on a bind failure the only code that runs is
the `error` handler, and it performs no process exit at all — in particular
no exit with nonzero status. -/
theorem bind_failure_no_exit :
    ¬ ∃ code, code ≠ 0 ∧ Effect.exitProcess code ∈
      bindFailureEffects "listen EADDRINUSE: address already in use" := by
  simp [bindFailureEffects, serverErrorHandler]

/-- Claim C6 as amended: when the listener cannot bind, the `error` handler
logs the error and the process does not exit — the resulting effects are
exactly one error log and contain no exit. -/
theorem bind_failure_logs_only (err : String) :
    bindFailureEffects err = [Effect.logError ("Server error: " ++ err)] ∧
    ∀ e, e ∈ bindFailureEffects err → e.isExit = false := by
  refine ⟨rfl, ?_⟩
  intro e he
  simp [bindFailureEffects, serverErrorHandler] at he
  rw [he]
  rfl

/-- Witness for the amended C6: the single logged effect of a concrete bind
failure is not an exit. -/
theorem bind_failure_logs_only_witness :
    (Effect.logError ("Server error: " ++ "EADDRINUSE")).isExit = false :=
  (bind_failure_logs_only "EADDRINUSE").2
    (Effect.logError ("Server error: " ++ "EADDRINUSE"))
    (by simp [bindFailureEffects, serverErrorHandler])

/-- Claim C8: a handshake error on connection `c` leaves the process alive,
removes only `c` (every other live connection survives), produces only
logging effects — never a process exit and never a handshake retry — and the
`uncaughtException` handler likewise only logs. -/
theorem handshake_error_contained (s : ServerState) (c : Nat) (err : String)
    (proto : Option String) :
    (handshakeErrorStep s c err proto).1.exited = s.exited ∧
    c ∉ (handshakeErrorStep s c err proto).1.connections ∧
    (∀ d, d ∈ s.connections → d ≠ c →
      d ∈ (handshakeErrorStep s c err proto).1.connections) ∧
    ((handshakeErrorStep s c err proto).2.all
      (fun e => !e.isExit && !e.isRetry)) = true ∧
    (∃ rest, (handshakeErrorStep s c err proto).2 =
      Effect.logError ("TLS Client error: " ++ err) :: rest) ∧
    ((uncaughtExceptionHandler err).all (fun e => !e.isExit)) = true := by
  refine ⟨rfl, ?_, ?_, ?_, ?_, rfl⟩
  · simp [handshakeErrorStep]
  · intro d hd hne
    simp [handshakeErrorStep]
    exact ⟨hd, hne⟩
  · cases proto <;> rfl
  · cases proto
    · exact ⟨[], rfl⟩
    · exact ⟨_, rfl⟩

/-- Witness for C8: on a concrete three-connection state, a handshake error
on connection 2 keeps the process alive, drops connection 2 and keeps
connection 1. -/
theorem handshake_error_contained_witness :
    (handshakeErrorStep ⟨[1, 2, 3], false⟩ 2 "bad certificate" none).1.exited
      = false ∧
    2 ∉ (handshakeErrorStep ⟨[1, 2, 3], false⟩ 2 "bad certificate"
      none).1.connections ∧
    1 ∈ (handshakeErrorStep ⟨[1, 2, 3], false⟩ 2 "bad certificate"
      none).1.connections :=
  ⟨(handshake_error_contained ⟨[1, 2, 3], false⟩ 2 "bad certificate" none).1,
   (handshake_error_contained ⟨[1, 2, 3], false⟩ 2 "bad certificate"
      none).2.1,
   (handshake_error_contained ⟨[1, 2, 3], false⟩ 2 "bad certificate"
      none).2.2.1 1 (by simp) (by decide)⟩

/-- Claim C9: every OPTIONS request is answered by the CORS middleware with
status 200 before the route (and hence the authorization flag) is ever
consulted: the response is the same whatever the flag, so an unauthorized
client gets 200 on OPTIONS, not the 401 rejection. -/
theorem options_answered_before_auth (req : Request)
    (h : req.method = "OPTIONS") :
    appHandle req =
      { httpStatus := 200, headers := corsHeaders,
        body := Body.sendStatus 200 } ∧
    ∀ a : Bool, appHandle { req with authorized := a } = appHandle req := by
  constructor
  · unfold appHandle
    rw [h]
    simp
  · intro a
    unfold appHandle
    simp only [h]
    simp

/-- Witness for C9: a concrete unauthorized OPTIONS request receives 200. -/
theorem options_answered_before_auth_witness :
    appHandle ⟨"OPTIONS", "/", false, sampleCert⟩ =
      { httpStatus := 200, headers := corsHeaders,
        body := Body.sendStatus 200 } :=
  (options_answered_before_auth ⟨"OPTIONS", "/", false, sampleCert⟩ rfl).1

end MtlsMock
